import Mathlib

/-!
Shallow embedding of `src/libnodegl/node_render.c` (the Render node of
node.gl): the state of `struct render_priv`, the lifecycle entry points
`render_init` / `render_update` / `render_draw` / `render_uninit`, and
the helper routines `check_attributes` and `init_attributes`.

External collaborators (GL feature flags, the pass subsystem, node
allocation and attachment, the hmap allocator, format and topology
conversion) are not part of this translation unit; they are modelled as
an explicit environment `Env` of oracles.  A C null-pointer dereference
(for example reading the vertex count of an absent vertices buffer) is
modelled by returning `none` from the embedded function.
-/

namespace NodeRender

/-- A buffer node's private data (`struct buffer_priv`): its element
count, whether it references a storage block, its data format and its
GL buffer id. -/
structure Buffer where
  count : Int
  block : Bool
  data_format : Int
  id : Nat
deriving DecidableEq

/-- A geometry node's private data (`struct geometry_priv`): the three
builtin attribute buffers (vertices, uvcoords, normals), the optional
index buffer, and the primitive topology. -/
structure Geometry where
  vertices_buffer : Option Buffer
  uvcoords_buffer : Option Buffer
  normals_buffer : Option Buffer
  indices_buffer : Option Buffer
  topology : Int
deriving DecidableEq

/-- Modelled from the spec: the ordered key/value container
(`ngli_hmap`, whose source is not under src/) used for the named
resource sets; entries are kept in insertion order with unique keys. -/
abbrev Hmap := List (String × Buffer)

/-- Modelled from the spec: `ngli_hmap_set` uses set semantics —
inserting under a key already present overwrites the previous value in
place, otherwise the new entry is appended in insertion order. -/
def hmapSet : Hmap → String → Buffer → Hmap
  | [], k, v => [(k, v)]
  | e :: rest, k, v => if e.1 = k then (k, v) :: rest else e :: hmapSet rest k v

/-- Lookup of a key in an hmap: the first entry carrying that key. -/
def hmapGet (m : Hmap) (k : String) : Option Buffer :=
  (m.find? (fun e => decide (e.1 = k))).map Prod.snd

/-- The four draw procedures a render node can resolve to
(`draw_elements`, `draw_elements_instanced`, `draw_arrays`,
`draw_arrays_instanced`), stored in `render_priv.draw`. -/
inductive DrawProc
  | elements
  | elements_instanced
  | arrays
  | arrays_instanced
deriving DecidableEq

/-- Environment of external collaborators: GL feature flags, return
codes of the fallible external calls made by this file, and the pure
external conversion functions.  A non-negative return code means the
external call succeeded; a negative one is the error it returns. -/
structure Env where
  features_draw_instanced : Bool
  features_instanced_array : Bool
  node_create_ok : Bool
  attach_ctx_ret : Int
  buffer_ref_ret : Int
  hmap_create_ok : Bool
  hmap_set_ret : Int
  pass_init_ret : Int
  pass_bind_ret : Int
  pass_unbind_ret : Int
  pass_update_ret : Int
  format_gl_type : Int → Int
  gl_topology : Int → Int
  node_update : Geometry → Int × Geometry

/-- All fallible external resource operations succeed: no allocation,
attachment, reference-acquisition or pass-initialization failure. -/
def goodEnv (env : Env) : Prop :=
  env.node_create_ok = true ∧ 0 ≤ env.attach_ctx_ret ∧ 0 ≤ env.buffer_ref_ret ∧
  env.hmap_create_ok = true ∧ 0 ≤ env.hmap_set_ret ∧ 0 ≤ env.pass_init_ret

instance (env : Env) : Decidable (goodEnv env) := by
  unfold goodEnv; infer_instance

/-- The render node's private state (`struct render_priv`).  The
`textures`, `uniforms` and `blocks` dictionaries are only handed to the
external pass subsystem, so their contents are not modelled beyond
presence. -/
structure RenderPriv where
  geometry : Geometry
  program : Option Unit
  textures : Option Unit
  uniforms : Option Unit
  blocks : Option Unit
  attributes : Option Hmap
  instance_attributes : Option Hmap
  nb_instances : Int
  pass_attributes : Option Hmap
  has_indices_buffer_ref : Bool
  indices_type : Int
  draw : Option DrawProc
deriving DecidableEq

/-- The data carried by the error log emitted by `check_attributes` on
a mismatching entry: the attribute name, its buffer count and the
expected count it was compared against. -/
structure AttrError where
  name : String
  buf_count : Int
  expected : Int
deriving DecidableEq

/-- The loop body of `check_attributes`: walk the entries in order; for
a per-instance map compare each buffer count with `nb_instances`, else
with the vertex count of the geometry's vertices buffer (a null
dereference — `none` — if that buffer is absent); stop at the first
mismatch. -/
def checkAttrList (s : RenderPriv) (per_instance : Bool) :
    Hmap → Option (Except AttrError Unit)
  | [] => some (Except.ok ())
  | (key, buffer) :: rest =>
    if per_instance then
      if buffer.count ≠ s.nb_instances then
        some (Except.error ⟨key, buffer.count, s.nb_instances⟩)
      else checkAttrList s per_instance rest
    else
      match s.geometry.vertices_buffer with
      | none => none
      | some vertices =>
        if buffer.count ≠ vertices.count then
          some (Except.error ⟨key, buffer.count, vertices.count⟩)
        else checkAttrList s per_instance rest

/-- `check_attributes`: a null map succeeds immediately, otherwise the
entries are validated in order.  `Except.error` corresponds to the C
function logging the offending name with both counts and returning -1. -/
def check_attributes (s : RenderPriv) (attributes : Option Hmap)
    (per_instance : Bool) : Option (Except AttrError Unit) :=
  match attributes with
  | none => some (Except.ok ())
  | some m => checkAttrList s per_instance m

/-- The `attrib_const_map` table of `node_render.c`: the three reserved
attribute names paired with the geometry field each one reads. -/
def builtinSlots (g : Geometry) : List (String × Option Buffer) :=
  [("ngl_position", g.vertices_buffer),
   ("ngl_uvcoord",  g.uvcoords_buffer),
   ("ngl_normal",   g.normals_buffer)]

/-- The builtin insertions actually performed by `init_attributes`: a
slot is skipped when its geometry buffer is null. -/
def builtinSets (g : Geometry) : List (String × Buffer) :=
  (builtinSlots g).filterMap (fun e => e.2.map (fun b => (e.1, b)))

/-- Insert a list of (key, value) pairs into an hmap, in order, with
`hmapSet` semantics. -/
def copyInto (m : Hmap) : List (String × Buffer) → Hmap
  | [] => m
  | e :: rest => copyInto (hmapSet m e.1 e.2) rest

/-- Perform the sequence of `ngli_hmap_set` calls of `init_attributes`;
each call fails with `env.hmap_set_ret` when that oracle is negative,
aborting the loop with the partially filled map. -/
def setAll (env : Env) (m : Hmap) : List (String × Buffer) → Int × Hmap
  | [] => (0, m)
  | e :: rest =>
    if env.hmap_set_ret < 0 then (env.hmap_set_ret, m)
    else setAll env (hmapSet m e.1 e.2) rest

/-- `init_attributes`: create `pass_attributes`, copy every user
attribute entry into it, then insert the non-null builtin geometry
slots in the fixed table order. -/
def init_attributes (env : Env) (s : RenderPriv) : Int × RenderPriv :=
  if env.hmap_create_ok = false then (-1, { s with pass_attributes := none })
  else
    let sets := s.attributes.getD [] ++ builtinSets s.geometry
    let r := setAll env [] sets
    (r.1, { s with pass_attributes := some r.2 })

/-- The default-program step of `render_init`: when no program was
supplied, create a default program node and attach it to the context. -/
def initProgram (env : Env) (s : RenderPriv) : Int × RenderPriv :=
  match s.program with
  | some _ => (0, s)
  | none =>
    if env.node_create_ok = false then (-1, s)
    else
      let s1 := { s with program := some () }
      if env.attach_ctx_ret < 0 then (env.attach_ctx_ret, s1) else (0, s1)

/-- The index-buffer step of `render_init`: when the geometry exposes
an index buffer, acquire a shared reference on it, record the fact in
`has_indices_buffer_ref`, reject block-backed index buffers, and derive
`indices_type` from the buffer's data format.  The third component
counts the shared references successfully acquired by the call. -/
def initIndices (env : Env) (s : RenderPriv) : Int × RenderPriv × Nat :=
  match s.geometry.indices_buffer with
  | none => (0, s, 0)
  | some ib =>
    if env.buffer_ref_ret < 0 then (env.buffer_ref_ret, s, 0)
    else
      let s1 := { s with has_indices_buffer_ref := true }
      if ib.block then (-1, s1, 1)
      else (0, { s1 with indices_type := env.format_gl_type ib.data_format }, 1)

/-- The draw-procedure selection at the end of `render_init`. -/
def selectDraw (s : RenderPriv) : RenderPriv :=
  if s.geometry.indices_buffer.isSome then
    { s with draw := some (if s.nb_instances > 0 then DrawProc.elements_instanced
                           else DrawProc.elements) }
  else
    { s with draw := some (if s.nb_instances > 0 then DrawProc.arrays_instanced
                           else DrawProc.arrays) }

/-- `render_init`: instancing capability checks, attribute validation,
default program construction, index-buffer reference acquisition and
block rejection, attribute aggregation, pass initialization, draw
procedure selection.  The result is the returned code, the state after
the call, and the number of index-buffer references acquired; `none`
models a null-pointer dereference inside `check_attributes`. -/
def render_init (env : Env) (s : RenderPriv) : Option (Int × RenderPriv × Nat) :=
  if s.nb_instances ≠ 0 ∧ env.features_draw_instanced = false then
    some (-1, s, 0)
  else if s.instance_attributes.isSome ∧ env.features_instanced_array = false then
    some (-1, s, 0)
  else
    match check_attributes s s.attributes false with
    | none => none
    | some (Except.error _) => some (-1, s, 0)
    | some (Except.ok _) =>
      match check_attributes s s.instance_attributes true with
      | none => none
      | some (Except.error _) => some (-1, s, 0)
      | some (Except.ok _) =>
        let p := initProgram env s
        if p.1 < 0 then some (p.1, p.2, 0)
        else
          let q := initIndices env p.2
          if q.1 < 0 then some (q.1, q.2.1, q.2.2)
          else
            let a := init_attributes env q.2.1
            if a.1 < 0 then some (a.1, a.2, q.2.2)
            else if env.pass_init_ret < 0 then some (env.pass_init_ret, a.2, q.2.2)
            else some (0, selectDraw a.2, q.2.2)

/-- `render_uninit`: free the derived attribute map, tear down the pass
(external), and release the index-buffer reference when
`has_indices_buffer_ref` is set.  The second component counts the
`ngli_node_buffer_unref` calls issued; note the flag is left as-is. -/
def render_uninit (s : RenderPriv) : RenderPriv × Nat :=
  let s1 := { s with pass_attributes := none }
  if s1.has_indices_buffer_ref then (s1, 1) else (s1, 0)

/-- `render_update`: update the geometry node, then the pass; surface
the first failure. -/
def render_update (env : Env) (s : RenderPriv) : Int × RenderPriv :=
  let r := env.node_update s.geometry
  let s1 := { s with geometry := r.2 }
  if r.1 < 0 then (r.1, s1) else (env.pass_update_ret, s1)

/-- GL_ELEMENT_ARRAY_BUFFER. -/
def GL_ELEMENT_ARRAY_BUFFER : Int := 34963

/-- The observable events emitted during a `render_draw` call: pass
bind/unbind, error logs, and the GL calls made by the draw procedures. -/
inductive Event
  | pass_bind
  | pass_unbind
  | log (msg : String)
  | gl_bind_buffer (target : Int) (id : Nat)
  | gl_draw_elements (topology : Int) (count : Int) (itype : Int)
  | gl_draw_elements_instanced (topology : Int) (count : Int) (itype : Int) (instances : Int)
  | gl_draw_arrays (topology : Int) (first : Int) (count : Int)
  | gl_draw_arrays_instanced (topology : Int) (first : Int) (count : Int) (instances : Int)
deriving DecidableEq

/-- `draw_elements`: bind the index buffer and issue one indexed draw;
topology and index count are read from the geometry at call time. -/
def draw_elements (env : Env) (s : RenderPriv) : Option (List Event) :=
  match s.geometry.indices_buffer with
  | none => none
  | some indices =>
    some [Event.gl_bind_buffer GL_ELEMENT_ARRAY_BUFFER indices.id,
          Event.gl_draw_elements (env.gl_topology s.geometry.topology)
            indices.count s.indices_type]

/-- `draw_elements_instanced`: as `draw_elements` with the instance
count of the render state. -/
def draw_elements_instanced (env : Env) (s : RenderPriv) : Option (List Event) :=
  match s.geometry.indices_buffer with
  | none => none
  | some indices =>
    some [Event.gl_bind_buffer GL_ELEMENT_ARRAY_BUFFER indices.id,
          Event.gl_draw_elements_instanced (env.gl_topology s.geometry.topology)
            indices.count s.indices_type s.nb_instances]

/-- `draw_arrays`: one non-indexed draw; topology and vertex count are
read from the geometry at call time. -/
def draw_arrays (env : Env) (s : RenderPriv) : Option (List Event) :=
  match s.geometry.vertices_buffer with
  | none => none
  | some vertices =>
    some [Event.gl_draw_arrays (env.gl_topology s.geometry.topology) 0 vertices.count]

/-- `draw_arrays_instanced`: as `draw_arrays` with the instance count
of the render state. -/
def draw_arrays_instanced (env : Env) (s : RenderPriv) : Option (List Event) :=
  match s.geometry.vertices_buffer with
  | none => none
  | some vertices =>
    some [Event.gl_draw_arrays_instanced (env.gl_topology s.geometry.topology)
            0 vertices.count s.nb_instances]

/-- Dispatch on the resolved draw procedure, as the stored function
pointer does. -/
def runDrawProc (env : Env) (s : RenderPriv) : DrawProc → Option (List Event)
  | DrawProc.elements => draw_elements env s
  | DrawProc.elements_instanced => draw_elements_instanced env s
  | DrawProc.arrays => draw_arrays env s
  | DrawProc.arrays_instanced => draw_arrays_instanced env s

/-- `render_draw`: bind the pass (logging on failure without aborting),
invoke the resolved draw procedure, unbind the pass (logging on
failure).  `none` models calling a null draw pointer or a null
dereference inside the draw procedure. -/
def render_draw (env : Env) (s : RenderPriv) : Option (List Event) :=
  match s.draw with
  | none => none
  | some p =>
    match runDrawProc env s p with
    | none => none
    | some cmds =>
      some ([Event.pass_bind] ++
            (if env.pass_bind_ret < 0 then [Event.log "pass upload data error"] else []) ++
            cmds ++ [Event.pass_unbind] ++
            (if env.pass_unbind_ret < 0 then [Event.log "could not unbind pass"] else []))

/-- Whether an event is a GL draw invocation. -/
def isDrawCall : Event → Bool
  | Event.pass_bind => false
  | Event.pass_unbind => false
  | Event.log _ => false
  | Event.gl_bind_buffer _ _ => false
  | Event.gl_draw_elements _ _ _ => true
  | Event.gl_draw_elements_instanced _ _ _ _ => true
  | Event.gl_draw_arrays _ _ _ => true
  | Event.gl_draw_arrays_instanced _ _ _ _ => true

/-- The validation and capability failure conditions of `render_init`,
as checked by the code, against a geometry whose vertices buffer is
`v`. -/
def initFailCond (env : Env) (s : RenderPriv) (v : Buffer) : Prop :=
  (s.nb_instances ≠ 0 ∧ env.features_draw_instanced = false) ∨
  (s.instance_attributes.isSome ∧ env.features_instanced_array = false) ∨
  (∃ e ∈ s.attributes.getD [], e.2.count ≠ v.count) ∨
  (∃ e ∈ s.instance_attributes.getD [], e.2.count ≠ s.nb_instances) ∨
  ((s.geometry.indices_buffer.map Buffer.block).getD false) = true

instance (env : Env) (s : RenderPriv) (v : Buffer) :
    Decidable (initFailCond env s v) := by
  unfold initFailCond; infer_instance

/-! ### Basic lemmas on the hmap model -/

theorem hmapGet_nil (k : String) : hmapGet [] k = none := rfl

theorem hmapGet_cons (e : String × Buffer) (rest : Hmap) (k : String) :
    hmapGet (e :: rest) k = if e.1 = k then some e.2 else hmapGet rest k := by
  by_cases h : e.1 = k
  · rw [hmapGet, List.find?_cons_of_pos _ (by simpa using h), if_pos h]
    rfl
  · rw [hmapGet, List.find?_cons_of_neg _ (by simpa using h), if_neg h]
    rfl

theorem hmapGet_set (m : Hmap) (k : String) (v : Buffer) (k2 : String) :
    hmapGet (hmapSet m k v) k2 = if k = k2 then some v else hmapGet m k2 := by
  induction m with
  | nil => simp [hmapSet, hmapGet_cons, hmapGet_nil]
  | cons e rest ih =>
    by_cases he : e.1 = k
    · rw [hmapSet, if_pos he]
      by_cases hk : k = k2
      · simp [hmapGet_cons, hk]
      · rw [hmapGet_cons, hmapGet_cons]
        have : e.1 ≠ k2 := by rw [he]; exact hk
        simp [this, hk]
    · rw [hmapSet, if_neg he]
      rw [hmapGet_cons, hmapGet_cons]
      by_cases hk : e.1 = k2
      · have : k ≠ k2 := by rw [← hk]; exact fun hc => he hc.symm
        simp [hk, this]
      · simp [hk, ih]

theorem hmapGet_eq_none_of_not_mem (m : Hmap) (k : String)
    (h : k ∉ m.map Prod.fst) : hmapGet m k = none := by
  induction m with
  | nil => rfl
  | cons e rest ih =>
    rw [hmapGet_cons]
    simp only [List.map_cons, List.mem_cons] at h
    push_neg at h
    rw [if_neg (fun hc => h.1 hc.symm)]
    exact ih h.2

theorem hmapGet_copyInto (l : List (String × Buffer)) (m : Hmap) (k : String)
    (hnd : (l.map Prod.fst).Nodup) :
    hmapGet (copyInto m l) k =
      match hmapGet l k with
      | some b => some b
      | none => hmapGet m k := by
  induction l generalizing m with
  | nil => simp [copyInto, hmapGet_nil]
  | cons e rest ih =>
    simp only [List.map_cons, List.nodup_cons] at hnd
    rw [copyInto, ih _ (hnd.2), hmapGet_cons]
    by_cases hk : e.1 = k
    · have hnm : k ∉ rest.map Prod.fst := hk ▸ hnd.1
      rw [hmapGet_eq_none_of_not_mem _ _ hnm, if_pos hk, hmapGet_set, if_pos hk]
    · rw [if_neg hk]
      cases hr : hmapGet rest k with
      | some b => rfl
      | none => simp [hmapGet_set, hk]

/-! ### Characterization of `check_attributes` -/

theorem checkAttrList_instanced (s : RenderPriv) (m : Hmap) :
    checkAttrList s true m =
      some (match m.find? (fun e => decide (e.2.count ≠ s.nb_instances)) with
            | some e => Except.error ⟨e.1, e.2.count, s.nb_instances⟩
            | none => Except.ok ()) := by
  induction m with
  | nil => rfl
  | cons e rest ih =>
    obtain ⟨key, buffer⟩ := e
    by_cases hc : buffer.count = s.nb_instances
    · rw [checkAttrList, if_pos rfl, if_neg (by simp [hc]), ih,
        List.find?_cons_of_neg _ (by simp [hc])]
    · rw [checkAttrList, if_pos rfl, if_pos hc,
        List.find?_cons_of_pos _ (by simp [hc])]

theorem checkAttrList_vertices (s : RenderPriv) (m : Hmap) (v : Buffer)
    (hv : s.geometry.vertices_buffer = some v) :
    checkAttrList s false m =
      some (match m.find? (fun e => decide (e.2.count ≠ v.count)) with
            | some e => Except.error ⟨e.1, e.2.count, v.count⟩
            | none => Except.ok ()) := by
  induction m with
  | nil => rfl
  | cons e rest ih =>
    obtain ⟨key, buffer⟩ := e
    rw [checkAttrList, if_neg (by simp), hv]
    dsimp only
    by_cases hc : buffer.count = v.count
    · rw [if_neg (not_not_intro hc), ih, List.find?_cons_of_neg _ (by simp [hc])]
    · rw [if_pos hc, List.find?_cons_of_pos _ (by simp [hc])]

/-! ### Phase lemmas for `render_init` -/

theorem program_eta (s : RenderPriv) (h : s.program.isSome) :
    s = { s with program := some () } := by
  cases s with
  | mk geometry program textures uniforms blocks attributes instance_attributes
      nb_instances pass_attributes has_indices_buffer_ref indices_type draw =>
    cases program with
    | none => simp at h
    | some u => rfl

theorem initProgram_ok (env : Env) (s : RenderPriv)
    (h : 0 ≤ (initProgram env s).1) :
    initProgram env s = (0, { s with program := some () }) := by
  cases hp : s.program with
  | some u =>
    rw [initProgram, hp]
    dsimp only
    have hs : s.program.isSome := by rw [hp]; rfl
    rw [← program_eta s hs]
  | none =>
    rw [initProgram, hp] at h ⊢
    dsimp only at h ⊢
    by_cases hc : env.node_create_ok = false
    · rw [if_pos hc] at h; omega
    · rw [if_neg hc] at h ⊢
      by_cases ha : env.attach_ctx_ret < 0
      · rw [if_pos ha] at h; omega
      · rw [if_neg ha]

theorem initProgram_good (env : Env) (s : RenderPriv) (hg : goodEnv env) :
    initProgram env s = (0, { s with program := some () }) := by
  cases hp : s.program with
  | some u =>
    rw [initProgram, hp]
    dsimp only
    have hs : s.program.isSome := by rw [hp]; rfl
    rw [← program_eta s hs]
  | none =>
    rw [initProgram, hp]
    dsimp only
    rw [if_neg (by simp [hg.1]), if_neg (by have := hg.2.1; omega : ¬env.attach_ctx_ret < 0)]

theorem initIndices_none (env : Env) (s : RenderPriv)
    (h : s.geometry.indices_buffer = none) :
    initIndices env s = (0, s, 0) := by
  rw [initIndices, h]

theorem initIndices_some_good (env : Env) (s : RenderPriv) (ib : Buffer)
    (hg : goodEnv env) (hib : s.geometry.indices_buffer = some ib) :
    initIndices env s =
      if ib.block then (-1, { s with has_indices_buffer_ref := true }, 1)
      else (0, { s with has_indices_buffer_ref := true,
                        indices_type := env.format_gl_type ib.data_format }, 1) := by
  rw [initIndices, hib]
  dsimp only
  rw [if_neg (by have := hg.2.2.1; omega : ¬env.buffer_ref_ret < 0)]

theorem initIndices_ok (env : Env) (s : RenderPriv)
    (h : 0 ≤ (initIndices env s).1) :
    (s.geometry.indices_buffer = none ∧ initIndices env s = (0, s, 0)) ∨
    (∃ ib, s.geometry.indices_buffer = some ib ∧ ib.block = false ∧
      initIndices env s =
        (0,
         { s with has_indices_buffer_ref := true,
                  indices_type := env.format_gl_type ib.data_format },
         1)) := by
  cases hib : s.geometry.indices_buffer with
  | none => exact Or.inl ⟨rfl, initIndices_none env s hib⟩
  | some ib =>
    rw [initIndices, hib] at h ⊢
    dsimp only at h ⊢
    by_cases hr : env.buffer_ref_ret < 0
    · rw [if_pos hr] at h; omega
    · rw [if_neg hr] at h ⊢
      by_cases hb : ib.block
      · rw [if_pos hb] at h; omega
      · rw [if_neg hb] at h ⊢
        exact Or.inr ⟨ib, rfl, by simpa using hb, rfl⟩

theorem setAll_of_nonneg (env : Env) (h : 0 ≤ env.hmap_set_ret)
    (m : Hmap) (l : List (String × Buffer)) :
    setAll env m l = (0, copyInto m l) := by
  induction l generalizing m with
  | nil => rfl
  | cons e rest ih => rw [setAll, if_neg (by omega), ih, copyInto]

theorem setAll_ok (env : Env) (m : Hmap) (l : List (String × Buffer))
    (h : 0 ≤ (setAll env m l).1) :
    setAll env m l = (0, copyInto m l) := by
  induction l generalizing m with
  | nil => rfl
  | cons e rest ih =>
    rw [setAll] at h ⊢
    by_cases hs : env.hmap_set_ret < 0
    · rw [if_pos hs] at h; omega
    · rw [if_neg hs] at h ⊢
      rw [ih _ h, copyInto]

theorem init_attributes_ok (env : Env) (s : RenderPriv)
    (h : 0 ≤ (init_attributes env s).1) :
    init_attributes env s =
      (0,
       { s with
         pass_attributes := some (copyInto [] (s.attributes.getD [] ++ builtinSets s.geometry)) }) := by
  rw [init_attributes] at h ⊢
  by_cases hc : env.hmap_create_ok = false
  · rw [if_pos hc] at h; omega
  · rw [if_neg hc] at h ⊢
    simp only at h ⊢
    rw [setAll_ok env _ _ h]

theorem init_attributes_good (env : Env) (s : RenderPriv) (hg : goodEnv env) :
    init_attributes env s =
      (0,
       { s with
         pass_attributes := some (copyInto [] (s.attributes.getD [] ++ builtinSets s.geometry)) }) := by
  rw [init_attributes, if_neg (by simp [hg.2.2.2.1])]
  dsimp only
  rw [setAll_of_nonneg env hg.2.2.2.2.1]

theorem selectDraw_geometry (s : RenderPriv) : (selectDraw s).geometry = s.geometry := by
  rw [selectDraw]; split <;> rfl

theorem selectDraw_nb (s : RenderPriv) : (selectDraw s).nb_instances = s.nb_instances := by
  rw [selectDraw]; split <;> rfl

theorem selectDraw_attributes (s : RenderPriv) : (selectDraw s).attributes = s.attributes := by
  rw [selectDraw]; split <;> rfl

theorem selectDraw_instance_attributes (s : RenderPriv) :
    (selectDraw s).instance_attributes = s.instance_attributes := by
  rw [selectDraw]; split <;> rfl

theorem selectDraw_program (s : RenderPriv) : (selectDraw s).program = s.program := by
  rw [selectDraw]; split <;> rfl

theorem selectDraw_pass_attributes (s : RenderPriv) :
    (selectDraw s).pass_attributes = s.pass_attributes := by
  rw [selectDraw]; split <;> rfl

theorem selectDraw_ref (s : RenderPriv) :
    (selectDraw s).has_indices_buffer_ref = s.has_indices_buffer_ref := by
  rw [selectDraw]; split <;> rfl

theorem selectDraw_indices_type (s : RenderPriv) :
    (selectDraw s).indices_type = s.indices_type := by
  rw [selectDraw]; split <;> rfl

theorem selectDraw_draw (s : RenderPriv) :
    (selectDraw s).draw =
      some (if s.geometry.indices_buffer.isSome then
              (if s.nb_instances > 0 then DrawProc.elements_instanced
               else DrawProc.elements)
            else
              (if s.nb_instances > 0 then DrawProc.arrays_instanced
               else DrawProc.arrays)) := by
  rw [selectDraw]
  by_cases hib : s.geometry.indices_buffer.isSome
  · rw [if_pos hib, if_pos hib]
  · rw [if_neg hib, if_neg hib]

/-- What a successful `render_init` guarantees about the resulting
state: configuration fields are untouched, a program is in place, the
aggregated attribute map is built, the draw procedure is resolved from
the decision table, and the index-buffer reference bookkeeping matches
the geometry. -/
theorem render_init_ok (env : Env) (s s2 : RenderPriv) (n : Nat)
    (h : render_init env s = some (0, s2, n)) :
    s2.geometry = s.geometry ∧
    s2.nb_instances = s.nb_instances ∧
    s2.attributes = s.attributes ∧
    s2.instance_attributes = s.instance_attributes ∧
    s2.program = some () ∧
    s2.pass_attributes = some (copyInto [] (s.attributes.getD [] ++ builtinSets s.geometry)) ∧
    s2.draw = some (if s.geometry.indices_buffer.isSome then
                      (if s.nb_instances > 0 then DrawProc.elements_instanced
                       else DrawProc.elements)
                    else
                      (if s.nb_instances > 0 then DrawProc.arrays_instanced
                       else DrawProc.arrays)) ∧
    (s.geometry.indices_buffer = none →
      s2.has_indices_buffer_ref = s.has_indices_buffer_ref ∧ n = 0 ∧
      s2.indices_type = s.indices_type) ∧
    (∀ ib, s.geometry.indices_buffer = some ib →
      s2.has_indices_buffer_ref = true ∧ n = 1 ∧ ib.block = false ∧
      s2.indices_type = env.format_gl_type ib.data_format) := by
  rw [render_init] at h
  by_cases h1 : s.nb_instances ≠ 0 ∧ env.features_draw_instanced = false
  · rw [if_pos h1] at h; simp at h
  · rw [if_neg h1] at h
    by_cases h2 : s.instance_attributes.isSome ∧ env.features_instanced_array = false
    · rw [if_pos h2] at h; simp at h
    · rw [if_neg h2] at h
      cases hca : check_attributes s s.attributes false with
      | none => rw [hca] at h; simp at h
      | some r1 =>
        rw [hca] at h
        cases r1 with
        | error e => simp at h
        | ok u =>
          dsimp only at h
          cases hcb : check_attributes s s.instance_attributes true with
          | none => rw [hcb] at h; simp at h
          | some r2 =>
            rw [hcb] at h
            cases r2 with
            | error e => simp at h
            | ok u2 =>
              dsimp only at h
              by_cases hp : (initProgram env s).1 < 0
              · rw [if_pos hp] at h
                simp only [Option.some.injEq, Prod.mk.injEq] at h
                obtain ⟨h0, -, -⟩ := h
                omega
              · rw [if_neg hp] at h
                rw [initProgram_ok env s (le_of_not_lt hp)] at h
                dsimp only at h
                by_cases hq : (initIndices env { s with program := some () }).1 < 0
                · rw [if_pos hq] at h
                  simp only [Option.some.injEq, Prod.mk.injEq] at h
                  obtain ⟨h0, -, -⟩ := h
                  omega
                · rw [if_neg hq] at h
                  rcases initIndices_ok env _ (le_of_not_lt hq) with
                    ⟨hib, hQ⟩ | ⟨ib, hib, hbl, hQ⟩
                  · rw [hQ] at h
                    dsimp only at h
                    by_cases ha : (init_attributes env { s with program := some () }).1 < 0
                    · rw [if_pos ha] at h
                      simp only [Option.some.injEq, Prod.mk.injEq] at h
                      obtain ⟨h0, -, -⟩ := h
                      omega
                    · rw [if_neg ha] at h
                      rw [init_attributes_ok env _ (le_of_not_lt ha)] at h
                      dsimp only at h
                      by_cases hpi : env.pass_init_ret < 0
                      · rw [if_pos hpi] at h
                        simp only [Option.some.injEq, Prod.mk.injEq] at h
                        obtain ⟨h0, -, -⟩ := h
                        omega
                      · rw [if_neg hpi] at h
                        simp only [Option.some.injEq, Prod.mk.injEq] at h
                        obtain ⟨-, hs2, hn⟩ := h
                        subst hs2
                        subst hn
                        replace hib : s.geometry.indices_buffer = none := hib
                        refine ⟨?_, ?_, ?_, ?_, ?_, ?_, ?_, ?_, ?_⟩
                        · rw [selectDraw_geometry]
                        · rw [selectDraw_nb]
                        · rw [selectDraw_attributes]
                        · rw [selectDraw_instance_attributes]
                        · rw [selectDraw_program]
                        · rw [selectDraw_pass_attributes]
                        · rw [selectDraw_draw]
                        · intro _
                          rw [selectDraw_ref, selectDraw_indices_type]
                          exact ⟨rfl, rfl, rfl⟩
                        · intro ib2 hib2
                          rw [hib] at hib2
                          cases hib2
                  · rw [hQ] at h
                    dsimp only at h
                    by_cases ha : (init_attributes env
                        { s with program := some (), has_indices_buffer_ref := true,
                                 indices_type := env.format_gl_type ib.data_format }).1 < 0
                    · rw [if_pos ha] at h
                      simp only [Option.some.injEq, Prod.mk.injEq] at h
                      obtain ⟨h0, -, -⟩ := h
                      omega
                    · rw [if_neg ha] at h
                      rw [init_attributes_ok env _ (le_of_not_lt ha)] at h
                      dsimp only at h
                      by_cases hpi : env.pass_init_ret < 0
                      · rw [if_pos hpi] at h
                        simp only [Option.some.injEq, Prod.mk.injEq] at h
                        obtain ⟨h0, -, -⟩ := h
                        omega
                      · rw [if_neg hpi] at h
                        simp only [Option.some.injEq, Prod.mk.injEq] at h
                        obtain ⟨-, hs2, hn⟩ := h
                        subst hs2
                        subst hn
                        replace hib : s.geometry.indices_buffer = some ib := hib
                        refine ⟨?_, ?_, ?_, ?_, ?_, ?_, ?_, ?_, ?_⟩
                        · rw [selectDraw_geometry]
                        · rw [selectDraw_nb]
                        · rw [selectDraw_attributes]
                        · rw [selectDraw_instance_attributes]
                        · rw [selectDraw_program]
                        · rw [selectDraw_pass_attributes]
                        · rw [selectDraw_draw]
                        · intro hnone
                          rw [hib] at hnone
                          cases hnone
                        · intro ib2 hib2
                          rw [hib] at hib2
                          cases hib2
                          rw [selectDraw_ref, selectDraw_indices_type]
                          exact ⟨rfl, rfl, hbl, rfl⟩

/-- When every external resource operation succeeds and the geometry
has a vertices buffer, `render_init` returns, and it returns -1 exactly
when one of the capability or validation conditions holds, 0
otherwise. -/
theorem render_init_good (env : Env) (s : RenderPriv) (v : Buffer)
    (hg : goodEnv env) (hv : s.geometry.vertices_buffer = some v) :
    ∃ s2 n, render_init env s =
      some ((if initFailCond env s v then (-1 : Int) else 0), s2, n) := by
  rw [render_init]
  by_cases h1 : s.nb_instances ≠ 0 ∧ env.features_draw_instanced = false
  · refine ⟨s, 0, ?_⟩
    rw [if_pos h1, if_pos (show initFailCond env s v from Or.inl h1)]
  · rw [if_neg h1]
    by_cases h2 : s.instance_attributes.isSome ∧ env.features_instanced_array = false
    · refine ⟨s, 0, ?_⟩
      rw [if_pos h2, if_pos (show initFailCond env s v from Or.inr (Or.inl h2))]
    · rw [if_neg h2]
      have hchar1 : check_attributes s s.attributes false =
          some (match (s.attributes.getD []).find?
                  (fun e => decide (e.2.count ≠ v.count)) with
                | some e => Except.error ⟨e.1, e.2.count, v.count⟩
                | none => Except.ok ()) := by
        cases hA : s.attributes with
        | none => rfl
        | some m =>
          exact checkAttrList_vertices s m v hv
      cases hf1 : (s.attributes.getD []).find? (fun e => decide (e.2.count ≠ v.count)) with
      | some e =>
        rw [hchar1, hf1]
        dsimp only
        refine ⟨s, 0, ?_⟩
        have hmem := List.mem_of_find?_eq_some hf1
        have hpe := List.find?_some hf1
        have hne : e.2.count ≠ v.count := by simpa using hpe
        rw [if_pos (show initFailCond env s v from
          Or.inr (Or.inr (Or.inl ⟨e, hmem, hne⟩)))]
      | none =>
        rw [hchar1, hf1]
        dsimp only
        have hok1 : ∀ e ∈ s.attributes.getD [], e.2.count = v.count := by
          intro e he
          have := List.find?_eq_none.mp hf1 e he
          simpa using this
        have hchar2 : check_attributes s s.instance_attributes true =
            some (match (s.instance_attributes.getD []).find?
                    (fun e => decide (e.2.count ≠ s.nb_instances)) with
                  | some e => Except.error ⟨e.1, e.2.count, s.nb_instances⟩
                  | none => Except.ok ()) := by
          cases hA : s.instance_attributes with
          | none => rfl
          | some m =>
            exact checkAttrList_instanced s m
        cases hf2 : (s.instance_attributes.getD []).find?
            (fun e => decide (e.2.count ≠ s.nb_instances)) with
        | some e =>
          rw [hchar2, hf2]
          dsimp only
          refine ⟨s, 0, ?_⟩
          have hmem := List.mem_of_find?_eq_some hf2
          have hpe := List.find?_some hf2
          have hne : e.2.count ≠ s.nb_instances := by simpa using hpe
          rw [if_pos (show initFailCond env s v from
            Or.inr (Or.inr (Or.inr (Or.inl ⟨e, hmem, hne⟩))))]
        | none =>
          rw [hchar2, hf2]
          dsimp only
          have hok2 : ∀ e ∈ s.instance_attributes.getD [], e.2.count = s.nb_instances := by
            intro e he
            have := List.find?_eq_none.mp hf2 e he
            simpa using this
          rw [initProgram_good env s hg]
          dsimp only
          rw [if_neg (by omega : ¬(0 : Int) < 0)]
          cases hib : s.geometry.indices_buffer with
          | none =>
            rw [initIndices_none env { s with program := some () } hib]
            dsimp only
            rw [if_neg (by omega : ¬(0 : Int) < 0)]
            rw [init_attributes_good env _ hg]
            dsimp only
            rw [if_neg (by omega : ¬(0 : Int) < 0),
              if_neg (by have := hg.2.2.2.2.2; omega : ¬env.pass_init_ret < 0)]
            have hcond : ¬initFailCond env s v := by
              intro hc
              rcases hc with hx | hx | ⟨e, he, hne⟩ | ⟨e, he, hne⟩ | hblk
              · exact h1 hx
              · exact h2 hx
              · exact hne (hok1 e he)
              · exact hne (hok2 e he)
              · rw [hib] at hblk
                simp at hblk
            rw [if_neg hcond]
            exact ⟨_, _, rfl⟩
          | some ib =>
            rw [initIndices_some_good env { s with program := some () } ib hg hib]
            by_cases hb : ib.block = true
            · rw [if_pos hb]
              dsimp only
              rw [if_pos (by omega : (-1 : Int) < 0)]
              rw [if_pos (show initFailCond env s v from
                Or.inr (Or.inr (Or.inr (Or.inr (by rw [hib]; simpa using hb)))))]
              exact ⟨_, _, rfl⟩
            · rw [if_neg hb]
              dsimp only
              rw [if_neg (by omega : ¬(0 : Int) < 0)]
              rw [init_attributes_good env _ hg]
              dsimp only
              rw [if_neg (by omega : ¬(0 : Int) < 0),
                if_neg (by have := hg.2.2.2.2.2; omega : ¬env.pass_init_ret < 0)]
              have hcond : ¬initFailCond env s v := by
                intro hc
                rcases hc with hx | hx | ⟨e, he, hne⟩ | ⟨e, he, hne⟩ | hblk
                · exact h1 hx
                · exact h2 hx
                · exact hne (hok1 e he)
                · exact hne (hok2 e he)
                · rw [hib] at hblk
                  exact hb (by simpa using hblk)
              rw [if_neg hcond]
              exact ⟨_, _, rfl⟩

theorem copyInto_append (m : Hmap) (l1 l2 : List (String × Buffer)) :
    copyInto m (l1 ++ l2) = copyInto (copyInto m l1) l2 := by
  induction l1 generalizing m with
  | nil => rfl
  | cons e rest ih => rw [List.cons_append, copyInto, copyInto, ih]

theorem builtinSets_nodup (g : Geometry) :
    ((builtinSets g).map Prod.fst).Nodup := by
  rcases g with ⟨vb, ub, nb, ib, tp⟩
  cases vb <;> cases ub <;> cases nb <;>
    simp [builtinSets, builtinSlots]

theorem hmapGet_builtinSets (g : Geometry) (k : String) :
    hmapGet (builtinSets g) k =
      if k = "ngl_position" ∧ g.vertices_buffer.isSome then g.vertices_buffer
      else if k = "ngl_uvcoord" ∧ g.uvcoords_buffer.isSome then g.uvcoords_buffer
      else if k = "ngl_normal" ∧ g.normals_buffer.isSome then g.normals_buffer
      else none := by
  rcases g with ⟨vb, ub, nb, ib, tp⟩
  by_cases h1 : k = "ngl_position" <;> by_cases h2 : k = "ngl_uvcoord" <;>
    by_cases h3 : k = "ngl_normal" <;>
    cases vb <;> cases ub <;> cases nb <;>
    simp_all [builtinSets, builtinSlots, hmapGet_cons, hmapGet_nil, @eq_comm String k]

theorem blockCond_iff (g : Geometry) :
    ((g.indices_buffer.map Buffer.block).getD false) = true ↔
      ∃ ib, g.indices_buffer = some ib ∧ ib.block = true := by
  cases h : g.indices_buffer <;> simp [h]

theorem render_uninit_spec (s : RenderPriv) :
    render_uninit s = ({ s with pass_attributes := none },
                       if s.has_indices_buffer_ref then 1 else 0) := by
  rw [render_uninit]
  dsimp only
  by_cases hf : s.has_indices_buffer_ref = true
  · rw [if_pos hf, if_pos hf]
  · rw [if_neg hf, if_neg hf]

/-! ### Concrete fixtures -/

/-- An environment in which every external operation succeeds and both
instancing features are available. -/
def goodEnvA : Env :=
  { features_draw_instanced := true
    features_instanced_array := true
    node_create_ok := true
    attach_ctx_ret := 0
    buffer_ref_ret := 0
    hmap_create_ok := true
    hmap_set_ret := 0
    pass_init_ret := 0
    pass_bind_ret := 0
    pass_unbind_ret := 0
    pass_update_ret := 0
    format_gl_type := fun x => x
    gl_topology := fun x => x
    node_update := fun g => (0, g) }

/-- As `goodEnvA` but without the instanced-draw feature. -/
def envNoDI : Env := { goodEnvA with features_draw_instanced := false }

/-- A vertices buffer with 4 elements. -/
def bufV : Buffer := ⟨4, false, 7, 10⟩

/-- An index buffer with 6 elements. -/
def bufI : Buffer := ⟨6, false, 8, 11⟩

/-- A block-backed index buffer with 6 elements. -/
def bufIb : Buffer := ⟨6, true, 8, 11⟩

/-- A user attribute buffer with 4 elements. -/
def bufU : Buffer := ⟨4, false, 9, 12⟩

/-- A geometry with an index buffer. -/
def geomIdx : Geometry := ⟨some bufV, none, none, some bufI, 5⟩

/-- A geometry without an index buffer. -/
def geomNoIdx : Geometry := ⟨some bufV, none, none, none, 5⟩

/-- A geometry whose index buffer references a storage block. -/
def geomBlk : Geometry := ⟨some bufV, none, none, some bufIb, 5⟩

/-- A freshly constructed render node for a given geometry, with a
user-supplied program and everything else at its defaults. -/
def baseS (g : Geometry) : RenderPriv :=
  { geometry := g, program := some (), textures := none, uniforms := none,
    blocks := none, attributes := none, instance_attributes := none,
    nb_instances := 0, pass_attributes := none,
    has_indices_buffer_ref := false, indices_type := 0, draw := none }

/-- A render node over the indexed geometry. -/
def sIdx : RenderPriv := baseS geomIdx

/-- The state `render_init goodEnvA sIdx` produces. -/
def sIdx2 : RenderPriv :=
  { sIdx with pass_attributes := some [("ngl_position", bufV)],
              has_indices_buffer_ref := true, indices_type := 8,
              draw := some DrawProc.elements }

/-- `sIdx2` with the geometry's topology mutated after init. -/
def sIdx2mut : RenderPriv := { sIdx2 with geometry := { geomIdx with topology := 6 } }

/-- A render node with a negative instance count. -/
def sNeg : RenderPriv := { baseS geomNoIdx with nb_instances := -1 }

/-- A render node declaring a user attribute under the reserved
builtin name for the vertex position. -/
def sColl : RenderPriv :=
  { baseS geomIdx with attributes := some [("ngl_position", bufU)] }

/-- The state `render_init goodEnvA sColl` produces. -/
def sColl2 : RenderPriv :=
  { sColl with pass_attributes := some [("ngl_position", bufV)],
               has_indices_buffer_ref := true, indices_type := 8,
               draw := some DrawProc.elements }

/-- A render node with no program over the block-backed-index
geometry. -/
def sBlk : RenderPriv := { baseS geomBlk with program := none }

/-- A non-instanced render node with an instance attribute of non-zero
count. -/
def sInstZero : RenderPriv :=
  { baseS geomNoIdx with instance_attributes := some [("ia", bufU)] }

/-! ### Claim theorems -/

/-- Claim C1 (amended: the init-time instancing capability check fires
for any non-zero `nb_instances`, not only positive ones).  With every
external resource operation succeeding and a geometry exposing a
vertices buffer, `render_init` returns failure if and only if:
`nb_instances` is non-zero and the context lacks the instanced-draw
feature; or the `instance_attributes` map is present and the context
lacks the instanced-array feature; or some buffer in `attributes` has
an element count different from the geometry's vertex count; or some
buffer in `instance_attributes` has an element count different from
`nb_instances`; or the geometry's index buffer references a storage
block. -/
theorem render_init_fail_iff (env : Env) (s : RenderPriv) (v : Buffer)
    (r : Int) (s2 : RenderPriv) (n : Nat)
    (hg : goodEnv env) (hv : s.geometry.vertices_buffer = some v)
    (h : render_init env s = some (r, s2, n)) :
    r < 0 ↔
      ((s.nb_instances ≠ 0 ∧ env.features_draw_instanced = false) ∨
       (s.instance_attributes.isSome ∧ env.features_instanced_array = false) ∨
       (∃ e ∈ s.attributes.getD [], e.2.count ≠ v.count) ∨
       (∃ e ∈ s.instance_attributes.getD [], e.2.count ≠ s.nb_instances) ∨
       (∃ ib, s.geometry.indices_buffer = some ib ∧ ib.block = true)) := by
  obtain ⟨s2', n', hgood⟩ := render_init_good env s v hg hv
  rw [h] at hgood
  simp only [Option.some.injEq, Prod.mk.injEq] at hgood
  obtain ⟨hr, -, -⟩ := hgood
  have hiff : initFailCond env s v ↔
      ((s.nb_instances ≠ 0 ∧ env.features_draw_instanced = false) ∨
       (s.instance_attributes.isSome ∧ env.features_instanced_array = false) ∨
       (∃ e ∈ s.attributes.getD [], e.2.count ≠ v.count) ∨
       (∃ e ∈ s.instance_attributes.getD [], e.2.count ≠ s.nb_instances) ∨
       (∃ ib, s.geometry.indices_buffer = some ib ∧ ib.block = true)) := by
    unfold initFailCond
    exact or_congr Iff.rfl (or_congr Iff.rfl (or_congr Iff.rfl
      (or_congr Iff.rfl (blockCond_iff s.geometry))))
  rw [← hiff]
  subst hr
  by_cases hc : initFailCond env s v
  · rw [if_pos hc]
    exact iff_of_true (by norm_num) hc
  · rw [if_neg hc]
    exact iff_of_false (by norm_num) hc

/-- Claim C1 as stated is false: a node with `nb_instances = -1` on a
context without the instanced-draw feature fails init although none of
the claimed conditions (which test `nb_instances > 0`) holds and no
resource operation failed. -/
theorem render_init_fail_iff_counterexample :
    goodEnv envNoDI ∧
    render_init envNoDI sNeg = some (-1, sNeg, 0) ∧
    ¬((sNeg.nb_instances > 0 ∧ envNoDI.features_draw_instanced = false) ∨
      (sNeg.instance_attributes.isSome ∧ envNoDI.features_instanced_array = false) ∨
      (∃ e ∈ sNeg.attributes.getD [], e.2.count ≠ bufV.count) ∨
      (∃ e ∈ sNeg.instance_attributes.getD [], e.2.count ≠ sNeg.nb_instances) ∨
      (∃ ib, sNeg.geometry.indices_buffer = some ib ∧ ib.block = true)) := by
  refine ⟨by decide, by decide, ?_⟩
  rintro (⟨ha, -⟩ | ⟨hb, -⟩ | ⟨e, he, -⟩ | ⟨e, he, -⟩ | ⟨ib, hib, -⟩)
  · exact absurd ha (by decide)
  · exact absurd hb (by decide)
  · exact absurd he (List.not_mem_nil e)
  · exact absurd he (List.not_mem_nil e)
  · have hnone : sNeg.geometry.indices_buffer = none := rfl
    rw [hnone] at hib
    cases hib

theorem render_init_fail_iff_witness :
    goodEnv goodEnvA ∧
    sIdx.geometry.vertices_buffer = some bufV ∧
    render_init goodEnvA sIdx = some (0, sIdx2, 1) ∧
    (((0 : Int) < 0) ↔
      ((sIdx.nb_instances ≠ 0 ∧ goodEnvA.features_draw_instanced = false) ∨
       (sIdx.instance_attributes.isSome ∧ goodEnvA.features_instanced_array = false) ∨
       (∃ e ∈ sIdx.attributes.getD [], e.2.count ≠ bufV.count) ∨
       (∃ e ∈ sIdx.instance_attributes.getD [], e.2.count ≠ sIdx.nb_instances) ∨
       (∃ ib, sIdx.geometry.indices_buffer = some ib ∧ ib.block = true))) :=
  ⟨by decide, by decide, by decide,
   render_init_fail_iff goodEnvA sIdx bufV 0 sIdx2 1 (by decide) (by decide) (by decide)⟩

/-- Claim C2: for every node whose init succeeds, the selected draw
procedure is exactly the one given by the decision table over (geometry
has an index buffer) × (`nb_instances > 0`), and the selection is not
changed by later uninit or update calls. -/
theorem draw_selection_table (env : Env) (s s2 : RenderPriv) (n : Nat)
    (h : render_init env s = some (0, s2, n)) :
    s2.draw = some (if s.geometry.indices_buffer.isSome then
                      (if s.nb_instances > 0 then DrawProc.elements_instanced
                       else DrawProc.elements)
                    else
                      (if s.nb_instances > 0 then DrawProc.arrays_instanced
                       else DrawProc.arrays)) ∧
    (render_uninit s2).1.draw = s2.draw ∧
    (∀ env2 : Env, ((render_update env2 s2).2).draw = s2.draw) := by
  obtain ⟨-, -, -, -, -, -, hdraw, -, -⟩ := render_init_ok env s s2 n h
  refine ⟨hdraw, ?_, ?_⟩
  · rw [render_uninit_spec]
  · intro env2
    simp only [render_update]
    split <;> rfl

theorem draw_selection_table_witness :
    render_init goodEnvA sIdx = some (0, sIdx2, 1) ∧
    (sIdx2.draw = some (if sIdx.geometry.indices_buffer.isSome then
                          (if sIdx.nb_instances > 0 then DrawProc.elements_instanced
                           else DrawProc.elements)
                        else
                          (if sIdx.nb_instances > 0 then DrawProc.arrays_instanced
                           else DrawProc.arrays)) ∧
     (render_uninit sIdx2).1.draw = sIdx2.draw ∧
     (∀ env2 : Env, ((render_update env2 sIdx2).2).draw = sIdx2.draw)) :=
  ⟨by decide, draw_selection_table goodEnvA sIdx sIdx2 1 (by decide)⟩

/-- Claim C6: attribute validation succeeds on an absent or empty map;
otherwise each named entry's buffer count is compared to the vertex
count (`per_instance = false`) or to `nb_instances`
(`per_instance = true`), and the first mismatching entry fails the
validation with its name and both counts, later entries unexamined. -/
theorem check_attributes_spec (s : RenderPriv) (v : Buffer) (pi : Bool)
    (hv : s.geometry.vertices_buffer = some v) :
    check_attributes s none pi = some (Except.ok ()) ∧
    check_attributes s (some []) pi = some (Except.ok ()) ∧
    ∀ m : Hmap, check_attributes s (some m) pi =
      some (match m.find? (fun e =>
              decide (e.2.count ≠ (if pi then s.nb_instances else v.count))) with
            | some e => Except.error ⟨e.1, e.2.count,
                if pi then s.nb_instances else v.count⟩
            | none => Except.ok ()) := by
  refine ⟨rfl, ?_, ?_⟩
  · cases pi <;> rfl
  · intro m
    cases pi
    · exact checkAttrList_vertices s m v hv
    · exact checkAttrList_instanced s m

theorem check_attributes_spec_witness :
    sIdx.geometry.vertices_buffer = some bufV ∧
    (check_attributes sIdx none false = some (Except.ok ()) ∧
     check_attributes sIdx (some []) false = some (Except.ok ()) ∧
     ∀ m : Hmap, check_attributes sIdx (some m) false =
       some (match m.find? (fun e =>
               decide (e.2.count ≠ (if (false : Bool) then sIdx.nb_instances else bufV.count))) with
             | some e => Except.error ⟨e.1, e.2.count,
                 if (false : Bool) then sIdx.nb_instances else bufV.count⟩
             | none => Except.ok ())) :=
  ⟨by decide, check_attributes_spec sIdx bufV false (by decide)⟩

/-- Claim C7 (amended: the flag is not cleared by uninit, so a second
uninit call releases the reference again).  For a node whose flag
starts clear and whose init succeeds, `has_indices_buffer_ref` is set
iff the geometry exposes an index buffer, in which case exactly one
shared reference was acquired; a single uninit releases exactly one
reference when and only when the flag is set, but it leaves the flag
unchanged, so a second uninit performs the same release again. -/
theorem indices_ref_lifecycle (env : Env) (s s2 : RenderPriv) (n : Nat)
    (h0 : s.has_indices_buffer_ref = false)
    (h : render_init env s = some (0, s2, n)) :
    s2.has_indices_buffer_ref = s.geometry.indices_buffer.isSome ∧
    n = (if s.geometry.indices_buffer.isSome then 1 else 0) ∧
    (render_uninit s2).2 = (if s2.has_indices_buffer_ref then 1 else 0) ∧
    (render_uninit s2).1.has_indices_buffer_ref = s2.has_indices_buffer_ref ∧
    (render_uninit (render_uninit s2).1).2 = (render_uninit s2).2 := by
  obtain ⟨-, -, -, -, -, -, -, hnone, hsome⟩ := render_init_ok env s s2 n h
  have h12 : s2.has_indices_buffer_ref = s.geometry.indices_buffer.isSome ∧
      n = (if s.geometry.indices_buffer.isSome then 1 else 0) := by
    cases hib : s.geometry.indices_buffer with
    | none =>
      obtain ⟨hf, hn, -⟩ := hnone hib
      simp [hf, hn, h0, hib]
    | some ib =>
      obtain ⟨hf, hn, -, -⟩ := hsome ib hib
      simp [hf, hn, hib]
  refine ⟨h12.1, h12.2, ?_, ?_, ?_⟩
  · simp [render_uninit_spec]
  · simp [render_uninit_spec]
  · simp [render_uninit_spec]

/-- Claim C7 as stated is false: after a successful init over an
indexed geometry and one uninit, the flag is still set and a second
uninit issues a second release, contradicting "the flag is cleared
after release so that a second uninit does not release again". -/
theorem indices_ref_lifecycle_counterexample :
    render_init goodEnvA sIdx = some (0, sIdx2, 1) ∧
    (render_uninit sIdx2).2 = 1 ∧
    (render_uninit sIdx2).1.has_indices_buffer_ref = true ∧
    (render_uninit (render_uninit sIdx2).1).2 = 1 := by
  decide

theorem indices_ref_lifecycle_witness :
    sIdx.has_indices_buffer_ref = false ∧
    render_init goodEnvA sIdx = some (0, sIdx2, 1) ∧
    (sIdx2.has_indices_buffer_ref = sIdx.geometry.indices_buffer.isSome ∧
     (1 : Nat) = (if sIdx.geometry.indices_buffer.isSome then 1 else 0) ∧
     (render_uninit sIdx2).2 = (if sIdx2.has_indices_buffer_ref then 1 else 0) ∧
     (render_uninit sIdx2).1.has_indices_buffer_ref = sIdx2.has_indices_buffer_ref ∧
     (render_uninit (render_uninit sIdx2).1).2 = (render_uninit sIdx2).2) :=
  ⟨by decide, by decide, indices_ref_lifecycle goodEnvA sIdx sIdx2 1 (by decide) (by decide)⟩

/-- Claim C10: a negative `nb_instances` is treated inconsistently:
the init-time capability check treats the node as instanced (failing
without the instanced-draw feature, because it tests non-zero), while
the draw-procedure selection treats it as non-instanced (it tests
`nb_instances > 0`). -/
theorem negative_nb_instances_inconsistent (env : Env) (s : RenderPriv)
    (hneg : s.nb_instances < 0) :
    (env.features_draw_instanced = false → render_init env s = some (-1, s, 0)) ∧
    (∀ s2 n, render_init env s = some (0, s2, n) →
       s2.draw = some (if s.geometry.indices_buffer.isSome then DrawProc.elements
                       else DrawProc.arrays)) := by
  constructor
  · intro hfeat
    rw [render_init, if_pos ⟨by omega, hfeat⟩]
  · intro s2 n h
    obtain ⟨-, -, -, -, -, -, hdraw, -, -⟩ := render_init_ok env s s2 n h
    rw [hdraw]
    have hno : ¬(s.nb_instances > 0) := by omega
    by_cases hib : s.geometry.indices_buffer.isSome
    · rw [if_pos hib, if_pos hib, if_neg hno]
    · rw [if_neg hib, if_neg hib, if_neg hno]

theorem negative_nb_instances_witness :
    sNeg.nb_instances < 0 ∧
    ((envNoDI.features_draw_instanced = false →
        render_init envNoDI sNeg = some (-1, sNeg, 0)) ∧
     (∀ s2 n, render_init envNoDI sNeg = some (0, s2, n) →
        s2.draw = some (if sNeg.geometry.indices_buffer.isSome then DrawProc.elements
                        else DrawProc.arrays))) :=
  ⟨by decide, negative_nb_instances_inconsistent envNoDI sNeg (by decide)⟩

/-- Claim C3: after a successful init, `pass_attributes` equals the
user attributes map copied entry by entry, followed by
overwrite-on-existing-key insertion of the non-null builtin geometry
slots (position, uvcoord, normal, in that fixed order) under their
reserved names; consequently a non-null builtin slot, not the user's
buffer, is the value bound under a reserved name. -/
theorem pass_attributes_aggregation (env : Env) (s s2 : RenderPriv) (n : Nat)
    (h : render_init env s = some (0, s2, n))
    (hnd : ((s.attributes.getD []).map Prod.fst).Nodup) :
    s2.pass_attributes =
      some (copyInto (copyInto [] (s.attributes.getD [])) (builtinSets s.geometry)) ∧
    ∀ k, hmapGet (copyInto (copyInto [] (s.attributes.getD [])) (builtinSets s.geometry)) k =
      (if k = "ngl_position" ∧ s.geometry.vertices_buffer.isSome then
         s.geometry.vertices_buffer
       else if k = "ngl_uvcoord" ∧ s.geometry.uvcoords_buffer.isSome then
         s.geometry.uvcoords_buffer
       else if k = "ngl_normal" ∧ s.geometry.normals_buffer.isSome then
         s.geometry.normals_buffer
       else hmapGet (s.attributes.getD []) k) := by
  obtain ⟨-, -, -, -, -, hpa, -, -, -⟩ := render_init_ok env s s2 n h
  constructor
  · rw [hpa, copyInto_append]
  · intro k
    rw [hmapGet_copyInto _ _ _ (builtinSets_nodup s.geometry),
        hmapGet_copyInto _ _ _ hnd, hmapGet_builtinSets]
    by_cases c1 : k = "ngl_position" ∧ s.geometry.vertices_buffer.isSome
    · rw [if_pos c1, if_pos c1]
      obtain ⟨b, hb⟩ := Option.isSome_iff_exists.mp c1.2
      rw [hb]
    · rw [if_neg c1, if_neg c1]
      by_cases c2 : k = "ngl_uvcoord" ∧ s.geometry.uvcoords_buffer.isSome
      · rw [if_pos c2, if_pos c2]
        obtain ⟨b, hb⟩ := Option.isSome_iff_exists.mp c2.2
        rw [hb]
      · rw [if_neg c2, if_neg c2]
        by_cases c3 : k = "ngl_normal" ∧ s.geometry.normals_buffer.isSome
        · rw [if_pos c3, if_pos c3]
          obtain ⟨b, hb⟩ := Option.isSome_iff_exists.mp c3.2
          rw [hb]
        · rw [if_neg c3, if_neg c3]
          cases hu : hmapGet (s.attributes.getD []) k with
          | some b => rfl
          | none => rfl

theorem pass_attributes_aggregation_witness :
    render_init goodEnvA sColl = some (0, sColl2, 1) ∧
    ((sColl.attributes.getD []).map Prod.fst).Nodup ∧
    (sColl2.pass_attributes =
       some (copyInto (copyInto [] (sColl.attributes.getD [])) (builtinSets sColl.geometry)) ∧
     ∀ k, hmapGet (copyInto (copyInto [] (sColl.attributes.getD []))
            (builtinSets sColl.geometry)) k =
       (if k = "ngl_position" ∧ sColl.geometry.vertices_buffer.isSome then
          sColl.geometry.vertices_buffer
        else if k = "ngl_uvcoord" ∧ sColl.geometry.uvcoords_buffer.isSome then
          sColl.geometry.uvcoords_buffer
        else if k = "ngl_normal" ∧ sColl.geometry.normals_buffer.isSome then
          sColl.geometry.normals_buffer
        else hmapGet (sColl.attributes.getD []) k)) :=
  ⟨by decide, by decide,
   pass_attributes_aggregation goodEnvA sColl sColl2 1 (by decide) (by decide)⟩

/-- Claim C4 (amended: the draw variant, the index element type and
the instance count are fixed at init, but the primitive topology and
the index/vertex element count are read from the geometry at draw
time, so mutating the geometry after init changes what draw emits).
Every draw call issues exactly one GL draw invocation, whose topology
and count come from the node's current geometry. -/
theorem draw_reads_current_geometry (env : Env) (s : RenderPriv) (p : DrawProc)
    (v ib : Buffer) (hp : s.draw = some p)
    (hv : s.geometry.vertices_buffer = some v)
    (hib : (p = DrawProc.elements ∨ p = DrawProc.elements_instanced) →
      s.geometry.indices_buffer = some ib) :
    ∃ t, render_draw env s = some t ∧
      t.filter isDrawCall =
        [(match p with
          | DrawProc.elements =>
              Event.gl_draw_elements (env.gl_topology s.geometry.topology)
                ib.count s.indices_type
          | DrawProc.elements_instanced =>
              Event.gl_draw_elements_instanced (env.gl_topology s.geometry.topology)
                ib.count s.indices_type s.nb_instances
          | DrawProc.arrays =>
              Event.gl_draw_arrays (env.gl_topology s.geometry.topology) 0 v.count
          | DrawProc.arrays_instanced =>
              Event.gl_draw_arrays_instanced (env.gl_topology s.geometry.topology)
                0 v.count s.nb_instances)] := by
  cases p with
  | elements =>
    have hib2 := hib (Or.inl rfl)
    simp only [render_draw, hp, runDrawProc, draw_elements, hib2]
    refine ⟨_, rfl, ?_⟩
    by_cases hbr : env.pass_bind_ret < 0 <;> by_cases hur : env.pass_unbind_ret < 0 <;>
      simp [hbr, hur, isDrawCall]
  | elements_instanced =>
    have hib2 := hib (Or.inr rfl)
    simp only [render_draw, hp, runDrawProc, draw_elements_instanced, hib2]
    refine ⟨_, rfl, ?_⟩
    by_cases hbr : env.pass_bind_ret < 0 <;> by_cases hur : env.pass_unbind_ret < 0 <;>
      simp [hbr, hur, isDrawCall]
  | arrays =>
    simp only [render_draw, hp, runDrawProc, draw_arrays, hv]
    refine ⟨_, rfl, ?_⟩
    by_cases hbr : env.pass_bind_ret < 0 <;> by_cases hur : env.pass_unbind_ret < 0 <;>
      simp [hbr, hur, isDrawCall]
  | arrays_instanced =>
    simp only [render_draw, hp, runDrawProc, draw_arrays_instanced, hv]
    refine ⟨_, rfl, ?_⟩
    by_cases hbr : env.pass_bind_ret < 0 <;> by_cases hur : env.pass_unbind_ret < 0 <;>
      simp [hbr, hur, isDrawCall]

/-- Claim C4 as stated is false: after a successful init, mutating the
geometry's topology changes the draw invocation that `render_draw`
emits — the topology is re-read from the geometry at draw time, not
fixed at init. -/
theorem draw_fixed_at_init_counterexample :
    render_init goodEnvA sIdx = some (0, sIdx2, 1) ∧
    render_draw goodEnvA sIdx2 =
      some [Event.pass_bind, Event.gl_bind_buffer 34963 11,
            Event.gl_draw_elements 5 6 8, Event.pass_unbind] ∧
    render_draw goodEnvA sIdx2mut =
      some [Event.pass_bind, Event.gl_bind_buffer 34963 11,
            Event.gl_draw_elements 6 6 8, Event.pass_unbind] ∧
    render_draw goodEnvA sIdx2 ≠ render_draw goodEnvA sIdx2mut := by
  decide

theorem draw_reads_current_geometry_witness :
    sIdx2mut.draw = some DrawProc.elements ∧
    sIdx2mut.geometry.vertices_buffer = some bufV ∧
    ((DrawProc.elements = DrawProc.elements ∨
      DrawProc.elements = DrawProc.elements_instanced) →
        sIdx2mut.geometry.indices_buffer = some bufI) ∧
    (∃ t, render_draw goodEnvA sIdx2mut = some t ∧
      t.filter isDrawCall =
        [Event.gl_draw_elements (goodEnvA.gl_topology sIdx2mut.geometry.topology)
           bufI.count sIdx2mut.indices_type]) :=
  ⟨by decide, by decide, fun _ => by decide,
   draw_reads_current_geometry goodEnvA sIdx2mut DrawProc.elements bufV bufI
     (by decide) (by decide) (fun _ => by decide)⟩

/-- Claim C5: draw never fails: for every initialized node (over a
geometry with a vertices buffer), `render_draw` always produces a
trace; it binds the pass, logs on bind failure but still invokes the
resolved draw procedure (exactly one GL draw invocation is issued),
unbinds the pass, and only logs on unbind failure — the emitted GL
commands do not depend on the bind/unbind results. -/
theorem render_draw_total (env : Env) (s s2 : RenderPriv) (n : Nat) (v : Buffer)
    (h : render_init env s = some (0, s2, n))
    (hv : s.geometry.vertices_buffer = some v) :
    ∀ env2 : Env, ∃ cmds : List Event,
      (cmds.filter isDrawCall).length = 1 ∧
      ∀ br ur : Int,
        render_draw { env2 with pass_bind_ret := br, pass_unbind_ret := ur } s2 =
          some ([Event.pass_bind] ++
                (if br < 0 then [Event.log "pass upload data error"] else []) ++
                cmds ++ [Event.pass_unbind] ++
                (if ur < 0 then [Event.log "could not unbind pass"] else [])) := by
  obtain ⟨hgeom, hnb, -, -, -, -, hdraw, -, -⟩ := render_init_ok env s s2 n h
  intro env2
  cases hibs : s.geometry.indices_buffer with
  | some ib =>
    have hdraw2 : s2.draw = some (if s.nb_instances > 0 then DrawProc.elements_instanced
                                  else DrawProc.elements) := by
      rw [hdraw, if_pos (by rw [hibs]; rfl)]
    have hib2 : s2.geometry.indices_buffer = some ib := by rw [hgeom, hibs]
    by_cases hni : s.nb_instances > 0
    · rw [if_pos hni] at hdraw2
      refine ⟨[Event.gl_bind_buffer GL_ELEMENT_ARRAY_BUFFER ib.id,
               Event.gl_draw_elements_instanced (env2.gl_topology s2.geometry.topology)
                 ib.count s2.indices_type s2.nb_instances], rfl, ?_⟩
      intro br ur
      simp only [render_draw, hdraw2, runDrawProc, draw_elements_instanced, hib2]
    · rw [if_neg hni] at hdraw2
      refine ⟨[Event.gl_bind_buffer GL_ELEMENT_ARRAY_BUFFER ib.id,
               Event.gl_draw_elements (env2.gl_topology s2.geometry.topology)
                 ib.count s2.indices_type], rfl, ?_⟩
      intro br ur
      simp only [render_draw, hdraw2, runDrawProc, draw_elements, hib2]
  | none =>
    have hdraw2 : s2.draw = some (if s.nb_instances > 0 then DrawProc.arrays_instanced
                                  else DrawProc.arrays) := by
      rw [hdraw, if_neg (by rw [hibs]; simp)]
    have hv2 : s2.geometry.vertices_buffer = some v := by rw [hgeom, hv]
    by_cases hni : s.nb_instances > 0
    · rw [if_pos hni] at hdraw2
      refine ⟨[Event.gl_draw_arrays_instanced (env2.gl_topology s2.geometry.topology)
                 0 v.count s2.nb_instances], rfl, ?_⟩
      intro br ur
      simp only [render_draw, hdraw2, runDrawProc, draw_arrays_instanced, hv2]
    · rw [if_neg hni] at hdraw2
      refine ⟨[Event.gl_draw_arrays (env2.gl_topology s2.geometry.topology) 0 v.count],
              rfl, ?_⟩
      intro br ur
      simp only [render_draw, hdraw2, runDrawProc, draw_arrays, hv2]

theorem render_draw_total_witness :
    render_init goodEnvA sIdx = some (0, sIdx2, 1) ∧
    sIdx.geometry.vertices_buffer = some bufV ∧
    (∀ env2 : Env, ∃ cmds : List Event,
      (cmds.filter isDrawCall).length = 1 ∧
      ∀ br ur : Int,
        render_draw { env2 with pass_bind_ret := br, pass_unbind_ret := ur } sIdx2 =
          some ([Event.pass_bind] ++
                (if br < 0 then [Event.log "pass upload data error"] else []) ++
                cmds ++ [Event.pass_unbind] ++
                (if ur < 0 then [Event.log "could not unbind pass"] else []))) :=
  ⟨by decide, by decide,
   render_draw_total goodEnvA sIdx sIdx2 1 bufV (by decide) (by decide)⟩

/-- Claim C8: init is not atomic on the block-backed-index-buffer
error path: when the geometry's index buffer references a storage
block and every earlier check passes, init returns -1, but the shared
reference has already been acquired (exactly one), the flag has been
set, and a default program is in place; the acquired reference is
released by a later uninit. -/
theorem init_block_path_not_atomic (env : Env) (s : RenderPriv) (v ib : Buffer)
    (hg : goodEnv env) (hv : s.geometry.vertices_buffer = some v)
    (hib : s.geometry.indices_buffer = some ib) (hblk : ib.block = true)
    (hf1 : s.nb_instances = 0 ∨ env.features_draw_instanced = true)
    (hf2 : s.instance_attributes = none ∨ env.features_instanced_array = true)
    (ha : ∀ e ∈ s.attributes.getD [], e.2.count = v.count)
    (hia : ∀ e ∈ s.instance_attributes.getD [], e.2.count = s.nb_instances) :
    ∃ s2, render_init env s = some (-1, s2, 1) ∧
      s2.has_indices_buffer_ref = true ∧
      s2.program = some () ∧
      (render_uninit s2).2 = 1 := by
  have h1 : ¬(s.nb_instances ≠ 0 ∧ env.features_draw_instanced = false) := by
    rcases hf1 with hz | ht
    · exact fun hc => hc.1 hz
    · intro hc
      rw [ht] at hc
      exact absurd hc.2 (by simp)
  have h2 : ¬(s.instance_attributes.isSome ∧ env.features_instanced_array = false) := by
    rcases hf2 with hz | ht
    · intro hc
      rw [hz] at hc
      exact absurd hc.1 (by simp)
    · intro hc
      rw [ht] at hc
      exact absurd hc.2 (by simp)
  rw [render_init, if_neg h1, if_neg h2]
  have hch1 : check_attributes s s.attributes false = some (Except.ok ()) := by
    cases hA : s.attributes with
    | none => rfl
    | some m =>
      have hfnd : m.find? (fun e => decide (e.2.count ≠ v.count)) = none :=
        List.find?_eq_none.mpr (fun e he => by simp [ha e (by rw [hA]; exact he)])
      rw [show check_attributes s (some m) false = checkAttrList s false m from rfl,
          checkAttrList_vertices s m v hv, hfnd]
  have hch2 : check_attributes s s.instance_attributes true = some (Except.ok ()) := by
    cases hA : s.instance_attributes with
    | none => rfl
    | some m =>
      have hfnd : m.find? (fun e => decide (e.2.count ≠ s.nb_instances)) = none :=
        List.find?_eq_none.mpr (fun e he => by simp [hia e (by rw [hA]; exact he)])
      rw [show check_attributes s (some m) true = checkAttrList s true m from rfl,
          checkAttrList_instanced s m, hfnd]
  rw [hch1]
  dsimp only
  rw [hch2]
  dsimp only
  rw [initProgram_good env s hg]
  dsimp only
  rw [if_neg (by omega : ¬(0 : Int) < 0)]
  rw [initIndices_some_good env { s with program := some () } ib hg hib]
  rw [if_pos hblk]
  dsimp only
  rw [if_pos (by omega : (-1 : Int) < 0)]
  refine ⟨_, rfl, rfl, rfl, ?_⟩
  simp [render_uninit_spec]

theorem init_block_path_not_atomic_witness :
    goodEnv goodEnvA ∧
    sBlk.geometry.vertices_buffer = some bufV ∧
    sBlk.geometry.indices_buffer = some bufIb ∧
    bufIb.block = true ∧
    (sBlk.nb_instances = 0 ∨ goodEnvA.features_draw_instanced = true) ∧
    (sBlk.instance_attributes = none ∨ goodEnvA.features_instanced_array = true) ∧
    (∀ e ∈ sBlk.attributes.getD [], e.2.count = bufV.count) ∧
    (∀ e ∈ sBlk.instance_attributes.getD [], e.2.count = sBlk.nb_instances) ∧
    (∃ s2, render_init goodEnvA sBlk = some (-1, s2, 1) ∧
      s2.has_indices_buffer_ref = true ∧
      s2.program = some () ∧
      (render_uninit s2).2 = 1) :=
  ⟨by decide, by decide, by decide, by decide, by decide, by decide, by decide, by decide,
   init_block_path_not_atomic goodEnvA sBlk bufV bufIb (by decide) (by decide) (by decide)
     (by decide) (by decide) (by decide) (by decide) (by decide)⟩

/-- Claim C9: instance-attribute validation applies even for
non-instanced nodes: with `nb_instances = 0` and a non-empty
`instance_attributes` map, each instance buffer's count is compared
against 0, so any entry with a non-zero count makes init fail. -/
theorem instance_attrs_checked_when_zero (env : Env) (s : RenderPriv)
    (v : Buffer) (m : Hmap)
    (hg : goodEnv env) (hv : s.geometry.vertices_buffer = some v)
    (hnb : s.nb_instances = 0) (hia : s.instance_attributes = some m)
    (hex : ∃ e ∈ m, e.2.count ≠ 0) :
    (∃ er : AttrError, check_attributes s s.instance_attributes true =
        some (Except.error er) ∧ er.expected = 0) ∧
    (∃ s2 n, render_init env s = some (-1, s2, n)) := by
  constructor
  · have hsome : (m.find? (fun e => decide (e.2.count ≠ s.nb_instances))).isSome := by
      rw [List.find?_isSome]
      obtain ⟨e, he, hne⟩ := hex
      exact ⟨e, he, by simp [hnb, hne]⟩
    obtain ⟨e, hfind⟩ := Option.isSome_iff_exists.mp hsome
    refine ⟨⟨e.1, e.2.count, s.nb_instances⟩, ?_, by rw [hnb]⟩
    rw [show check_attributes s s.instance_attributes true = checkAttrList s true m from
          by rw [hia]; rfl,
        checkAttrList_instanced s m, hfind]

  · obtain ⟨e, he, hne⟩ := hex
    have hcond : initFailCond env s v :=
      Or.inr (Or.inr (Or.inr (Or.inl
        ⟨e, by rw [hia]; exact he, by rw [hnb]; exact hne⟩)))
    obtain ⟨s2, n, hgood⟩ := render_init_good env s v hg hv
    rw [if_pos hcond] at hgood
    exact ⟨s2, n, hgood⟩

theorem instance_attrs_checked_when_zero_witness :
    goodEnv goodEnvA ∧
    sInstZero.geometry.vertices_buffer = some bufV ∧
    sInstZero.nb_instances = 0 ∧
    sInstZero.instance_attributes = some [("ia", bufU)] ∧
    (∃ e ∈ [("ia", bufU)], e.2.count ≠ 0) ∧
    ((∃ er : AttrError, check_attributes sInstZero sInstZero.instance_attributes true =
        some (Except.error er) ∧ er.expected = 0) ∧
     (∃ s2 n, render_init goodEnvA sInstZero = some (-1, s2, n))) :=
  ⟨by decide, by decide, by decide, by decide, by decide,
   instance_attrs_checked_when_zero goodEnvA sInstZero bufV [("ia", bufU)]
     (by decide) (by decide) (by decide) (by decide) (by decide)⟩

end NodeRender
